import Mathlib

/-
Shallow embedding of the financial projection and valuation engine
(server routes module: calculateProjections, calculateValuation,
calculateTradingComps, calculateBreakdowns, calculateSensitivity, and the
LBO debt schedule with its Newton-Raphson IRR solver).

Modelling conventions:
- JavaScript numbers are modelled as real numbers.  `Math.round` is
  round-half-up, i.e. ⌊x + 1/2⌋.  `Math.pow` is `Real.rpow` (the discount
  code raises positive bases to half-integer exponents under the mid-year
  convention, so the carrier must contain those values).
- A model field whose `Number(...)` coercion would be NaN or non-finite
  (absent field, non-numeric string) is modelled as `none`; every actual
  number is `some x`.  `safeNumber` is then exactly the source guard.
- In an exact-arithmetic carrier every value is finite, so the source's
  `isFinite(v) ? v : 0` guards are the identity and JS `x/0` cannot arise
  where the source guards denominators; these guards are kept only where
  they can change a value.
- The LBO debt schedule and the IRR solver use only ring operations,
  `min`/`max` and division, so that section is embedded over ℚ and stays
  executable (the schedule reads only the ebitda / capex / changeInNwc
  fields of each projection, which are passed as rational triples).
-/

/-- JS Math.round: round half toward positive infinity. -/
noncomputable def jround (x : ℝ) : ℝ := (Int.floor (x + 1/2) : ℤ)

/-- JS Math.pow on a real base with a rational exponent (the exponents used
by the valuation code are `i + 0.5`, `i + 1` and `n`). -/
noncomputable def jpow (b : ℝ) (e : ℚ) : ℝ := b ^ (e : ℝ)

/-- safeNumber(value, fallback): Number(value), with NaN / non-finite
falling back.  `none` models an absent or non-numeric value. -/
def safeNumber (v : Option ℝ) (fallback : ℝ) : ℝ := v.getD fallback

/-- A peer entry of model.tradingComps. -/
structure TradingCompEntry where
  companyName : String := ""
  revenue : Option ℝ := none
  ebitda : Option ℝ := none
  netIncome : Option ℝ := none
  ev : Option ℝ := none
  marketCap : Option ℝ := none

/-- The assumptions record handed to the engine (fields the engine reads). -/
structure Model where
  startingRevenue : Option ℝ := none
  growthRate : Option ℝ := none
  cogsMargin : Option ℝ := none
  opexMargin : Option ℝ := none
  daMargin : Option ℝ := none
  interestRate : Option ℝ := none
  debtBalance : Option ℝ := none
  cashBalance : Option ℝ := none
  sharesOutstanding : Option ℝ := none
  wacc : Option ℝ := none
  terminalGrowthRate : Option ℝ := none
  exitMultiple : Option ℝ := none
  taxRate : Option ℝ := none
  arDays : Option ℝ := none
  inventoryDays : Option ℝ := none
  apDays : Option ℝ := none
  capexPercent : Option ℝ := none
  maintenanceCapexPercent : Option ℝ := none
  useMidYearConvention : Option Bool := none
  tradingComps : List TradingCompEntry := []

/-- One projected year (YearProjection of the shared schema). -/
structure YearProjection where
  year : ℕ := 0
  revenue : ℝ := 0
  cogs : ℝ := 0
  grossProfit : ℝ := 0
  opex : ℝ := 0
  ebitda : ℝ := 0
  da : ℝ := 0
  ebit : ℝ := 0
  interest : ℝ := 0
  ebt : ℝ := 0
  tax : ℝ := 0
  netIncome : ℝ := 0
  revenueGrowth : ℝ := 0
  ebitdaMargin : ℝ := 0
  netMargin : ℝ := 0
  accountsReceivable : ℝ := 0
  inventory : ℝ := 0
  accountsPayable : ℝ := 0
  netWorkingCapital : ℝ := 0
  changeInNwc : ℝ := 0
  capex : ℝ := 0
  maintenanceCapex : ℝ := 0
  growthCapex : ℝ := 0
  nopat : ℝ := 0
  ufcf : ℝ := 0
  fcf : ℝ := 0
  discountFactor : ℝ := 0
  pvOfFcf : ℝ := 0

instance : Inhabited YearProjection := ⟨{}⟩

/-- The numeric parameters calculateProjections extracts from the model. -/
structure ProjParams where
  growthRate : ℝ
  cogsMargin : ℝ
  opexMargin : ℝ
  daMargin : ℝ
  interestRate : ℝ
  debtBalance : ℝ
  taxRate : ℝ
  arDays : ℝ
  inventoryDays : ℝ
  apDays : ℝ
  capexPercent : ℝ
  maintenanceCapexPercent : ℝ

/-- clamp to [0, 100]: Math.max(0, Math.min(100, x)). -/
def clampPct (x : ℝ) : ℝ := max 0 (min 100 x)

/-- Parameter extraction at the top of calculateProjections. -/
def projParams (model : Model) : ProjParams where
  growthRate := safeNumber model.growthRate 0
  cogsMargin := clampPct (safeNumber model.cogsMargin 0)
  opexMargin := clampPct (safeNumber model.opexMargin 0)
  daMargin := clampPct (safeNumber model.daMargin 5)
  interestRate := max 0 (safeNumber model.interestRate 5)
  debtBalance := safeNumber model.debtBalance 0
  taxRate := clampPct (safeNumber model.taxRate 21)
  arDays := safeNumber model.arDays 45
  inventoryDays := safeNumber model.inventoryDays 60
  apDays := safeNumber model.apDays 30
  capexPercent := safeNumber model.capexPercent 5
  maintenanceCapexPercent := safeNumber model.maintenanceCapexPercent 2

/-- Body of the per-year loop of calculateProjections: the projection built
for year `year` from the running revenue and the previous year's NWC. -/
noncomputable def projYear (P : ProjParams) (year : ℕ) (revenue prevNwc : ℝ) :
    YearProjection :=
  let cogs := jround (revenue * (P.cogsMargin / 100))
  let grossProfit := revenue - cogs
  let opex := jround (revenue * (P.opexMargin / 100))
  let ebitda := grossProfit - opex
  let da := jround (revenue * (P.daMargin / 100))
  let ebit := ebitda - da
  let interest := jround (P.debtBalance * (P.interestRate / 100))
  let ebt := ebit - interest
  let tax := if ebt > 0 then jround (ebt * (P.taxRate / 100)) else 0
  let netIncome := ebt - tax
  let accountsReceivable := jround ((revenue / 365) * P.arDays)
  let inventory := jround ((cogs / 365) * P.inventoryDays)
  let accountsPayable := jround ((cogs / 365) * P.apDays)
  let netWorkingCapital := accountsReceivable + inventory - accountsPayable
  let changeInNwc := if year = 1 then netWorkingCapital
    else netWorkingCapital - prevNwc
  let capex := jround (revenue * (P.capexPercent / 100))
  let maintenanceCapex := jround (revenue * (P.maintenanceCapexPercent / 100))
  let growthCapex := capex - maintenanceCapex
  let nopat := jround (ebit * (1 - P.taxRate / 100))
  let ufcf := nopat + da - changeInNwc - capex
  let safeRevenue := if revenue > 0 then revenue else 1
  { year := year, revenue := revenue, cogs := cogs, grossProfit := grossProfit,
    opex := opex, ebitda := ebitda, da := da, ebit := ebit,
    interest := interest, ebt := ebt, tax := tax, netIncome := netIncome,
    revenueGrowth := if year = 1 then 0 else P.growthRate,
    ebitdaMargin := ebitda / safeRevenue * 100,
    netMargin := netIncome / safeRevenue * 100,
    accountsReceivable := accountsReceivable, inventory := inventory,
    accountsPayable := accountsPayable,
    netWorkingCapital := netWorkingCapital, changeInNwc := changeInNwc,
    capex := capex, maintenanceCapex := maintenanceCapex,
    growthCapex := growthCapex, nopat := nopat, ufcf := ufcf,
    fcf := ufcf, discountFactor := 0, pvOfFcf := 0 }

/-- Revenue update at the bottom of the loop: compound, round, floor at 1. -/
noncomputable def nextRevenue (P : ProjParams) (revenue : ℝ) : ℝ :=
  let r := jround (revenue * (1 + P.growthRate / 100))
  if r ≤ 0 then 1 else r

/-- The year loop of calculateProjections (`fuel` years remain, starting at
year index `year` with running state `revenue`, `prevNwc`). -/
noncomputable def projFrom (P : ProjParams) : ℕ → ℝ → ℝ → ℕ → List YearProjection
  | _, _, _, 0 => []
  | year, revenue, prevNwc, fuel + 1 =>
    let p := projYear P year revenue prevNwc
    p :: projFrom P (year + 1) (nextRevenue P revenue) p.netWorkingCapital fuel

/-- calculateProjections(model): a 5-year schedule. -/
noncomputable def calculateProjections (model : Model) : List YearProjection :=
  let startingRevenue := safeNumber model.startingRevenue 1000000
  let revenue := if startingRevenue > 0 then startingRevenue else 1
  projFrom (projParams model) 1 revenue 0 5

/-- ValuationOutput of the shared schema. -/
structure ValuationOutput where
  enterpriseValue : ℝ := 0
  equityValue : ℝ := 0
  terminalValue : ℝ := 0
  impliedMultiple : ℝ := 0
  terminalValueGordon : ℝ := 0
  terminalValueExitMultiple : ℝ := 0
  sumPvFcf : ℝ := 0
  pvOfTerminalValue : ℝ := 0
  netDebt : ℝ := 0
  equityValuePerShare : ℝ := 0
  sharesOutstanding : ℝ := 0

/-- Per-year discount period of calculateValuation:
`useMidYear ? idx + 0.5 : idx + 1` (idx is 0-based). -/
def discountPeriod (useMidYear : Bool) (idx : ℕ) : ℚ :=
  if useMidYear then idx + 0.5 else idx + 1

/-- Terminal-value discount period of calculateValuation.  The source line
is `useMidYear ? projections.length : projections.length` - both branches
are the full period count `n`. -/
def tvDiscountPeriod (useMidYear : Bool) (n : ℕ) : ℚ :=
  if useMidYear then n else n

/-- Body of the `projections.forEach((p, idx) => ...)` loop of
calculateValuation: it writes `p.discountFactor`, `p.fcf = p.ufcf` and
`p.pvOfFcf` in place on the array element at `idx`. -/
noncomputable def discountUpdate (wacc : ℝ) (useMidYear : Bool) (idx : ℕ)
    (p : YearProjection) : YearProjection :=
  let discountBase := 1 + wacc
  let discountFactor :=
    if discountBase > 0 then 1 / jpow discountBase (discountPeriod useMidYear idx)
    else 0
  { p with discountFactor := discountFactor, fcf := p.ufcf,
           pvOfFcf := p.ufcf * discountFactor }

/-- The forEach loop itself; the mutated array is modelled as a new list. -/
noncomputable def applyDiscounts (wacc : ℝ) (useMidYear : Bool) :
    ℕ → List YearProjection → List YearProjection
  | _, [] => []
  | idx, p :: rest =>
    discountUpdate wacc useMidYear idx p
      :: applyDiscounts wacc useMidYear (idx + 1) rest

/-- calculateValuation(model, projections).  The input array is mutated by
the source (see applyDiscounts); the result is the pair of the mutated
array and the ValuationOutput. -/
noncomputable def calculateValuation (model : Model)
    (projections : List YearProjection) :
    List YearProjection × ValuationOutput :=
  let wacc := max 0.01 (safeNumber model.wacc 10 / 100)
  let terminalGrowth := safeNumber model.terminalGrowthRate 2 / 100
  let exitMultiple := safeNumber model.exitMultiple 12
  let debt := safeNumber model.debtBalance 0
  let cash := safeNumber model.cashBalance 0
  let sharesOutstanding := safeNumber model.sharesOutstanding 1000000
  -- `model.useMidYearConvention !== false` : anything but the literal false
  let useMidYear := decide (model.useMidYearConvention ≠ some false)
  if projections.isEmpty then (projections, {}) else
  let updated := applyDiscounts wacc useMidYear 0 projections
  let sumPvOfFcf := (updated.map (·.pvOfFcf)).sum
  let lastProjection := updated.getLast!
  let lastUfcf := lastProjection.ufcf
  -- `lastProjection.ebitda || 1` : 0 is falsy in JS
  let lastEbitda := if lastProjection.ebitda = 0 then 1 else lastProjection.ebitda
  let waccMinusGrowth := wacc - terminalGrowth
  let terminalValueGordon :=
    if waccMinusGrowth > 0.001 then lastUfcf * (1 + terminalGrowth) / waccMinusGrowth
    else 0
  let terminalValueExitMultiple := lastEbitda * exitMultiple
  let terminalValue := terminalValueGordon
  let pvOfTerminalValue :=
    if wacc > 0 then
      terminalValue / jpow (1 + wacc) (tvDiscountPeriod useMidYear projections.length)
    else 0
  let enterpriseValue := sumPvOfFcf + pvOfTerminalValue
  let netDebt := debt - cash
  let equityValue := enterpriseValue - netDebt
  let equityValuePerShare :=
    if sharesOutstanding > 0 then equityValue / sharesOutstanding else 0
  let impliedMultiple := if lastEbitda ≠ 0 then enterpriseValue / lastEbitda else 0
  (updated,
   { enterpriseValue := enterpriseValue, equityValue := equityValue,
     terminalValue := terminalValue, impliedMultiple := impliedMultiple,
     terminalValueGordon := terminalValueGordon,
     terminalValueExitMultiple := terminalValueExitMultiple,
     sumPvFcf := sumPvOfFcf, pvOfTerminalValue := pvOfTerminalValue,
     netDebt := netDebt, equityValuePerShare := equityValuePerShare,
     sharesOutstanding := sharesOutstanding })

/-- TradingCompsOutput of the shared schema. -/
structure TradingCompsOutput where
  avgEvEbitda : ℝ := 0
  avgPe : ℝ := 0
  impliedEv : ℝ := 0
  impliedEquityValue : ℝ := 0

/-- The EV/EBITDA map body of calculateTradingComps. -/
noncomputable def evEbitdaRatio (c : TradingCompEntry) : ℝ :=
  let ebitda := safeNumber c.ebitda 1
  let ev := safeNumber c.ev 0
  if ebitda ≠ 0 then ev / ebitda else 0

/-- The P/E map body of calculateTradingComps. -/
noncomputable def peRatio (c : TradingCompEntry) : ℝ :=
  let netIncome := safeNumber c.netIncome 1
  let marketCap := safeNumber c.marketCap 0
  if netIncome ≠ 0 then marketCap / netIncome else 0

/-- calculateTradingComps(model, projections).  The source filter is
`isFinite(v) && v > 0`; finiteness is automatic over an exact carrier. -/
noncomputable def calculateTradingComps (model : Model)
    (projections : List YearProjection) : TradingCompsOutput :=
  let comps := model.tradingComps
  if comps.isEmpty || projections.isEmpty then {} else
  let evEbitdas := (comps.map evEbitdaRatio).filter fun v => decide (0 < v)
  let pes := (comps.map peRatio).filter fun v => decide (0 < v)
  let avgEvEbitda := if evEbitdas.length ≠ 0 then evEbitdas.sum / evEbitdas.length else 0
  let avgPe := if pes.length ≠ 0 then pes.sum / pes.length else 0
  let lastProjection := projections.getLast!
  -- `lastProjection.ebitda || 0` : the identity on an exact number
  let lastEbitda := lastProjection.ebitda
  let impliedEv := lastEbitda * avgEvEbitda
  -- `(lastProjection.netIncome * avgPe) || (impliedEv - debt)` : 0 is falsy
  let product := lastProjection.netIncome * avgPe
  let impliedEquityValue :=
    if product = 0 then impliedEv - safeNumber model.debtBalance 0 else product
  { avgEvEbitda := avgEvEbitda, avgPe := avgPe, impliedEv := impliedEv,
    impliedEquityValue := impliedEquityValue }

/-- One step of a calculation breakdown: label, value and the operator shown
before it (formula strings are presentational and omitted). -/
structure BreakdownStep where
  label : String
  value : ℝ
  operator : Option String := none

/-- MetricBreakdown of the shared schema. -/
structure MetricBreakdown where
  metricKey : String
  metricLabel : String
  finalValue : ℝ
  steps : List BreakdownStep

/-- YearBreakdowns of the shared schema. -/
structure YearBreakdowns where
  year : ℕ
  grossProfit : MetricBreakdown
  ebitda : MetricBreakdown
  ebit : MetricBreakdown
  netIncome : MetricBreakdown
  ufcf : MetricBreakdown

/-- ValuationBreakdown of the shared schema. -/
structure ValuationBreakdown where
  pvOfFcf : MetricBreakdown
  terminalValue : MetricBreakdown
  enterpriseValue : MetricBreakdown
  equityValue : MetricBreakdown

/-- ModelBreakdowns of the shared schema. -/
structure ModelBreakdowns where
  yearlyBreakdowns : List YearBreakdowns
  valuationBreakdown : ValuationBreakdown

/-- The per-year map body of calculateBreakdowns. -/
noncomputable def yearBreakdown (model : Model) (p : YearProjection) :
    YearBreakdowns :=
  { year := p.year,
    grossProfit :=
    { metricKey := "grossProfit", metricLabel := "Gross Profit",
      finalValue := p.grossProfit,
      steps :=
      [ { label := "Revenue", value := p.revenue, operator := some "=" },
        { label := "Cost of Goods Sold (COGS)", value := p.cogs, operator := some "-" },
        { label := "Gross Profit", value := p.grossProfit, operator := some "=" } ] },
    ebitda :=
    { metricKey := "ebitda", metricLabel := "EBITDA", finalValue := p.ebitda,
      steps :=
      [ { label := "Gross Profit", value := p.grossProfit, operator := some "=" },
        { label := "Operating Expenses (OpEx)", value := p.opex, operator := some "-" },
        { label := "EBITDA", value := p.ebitda, operator := some "=" } ] },
    ebit :=
    { metricKey := "ebit", metricLabel := "EBIT", finalValue := p.ebit,
      steps :=
      [ { label := "EBITDA", value := p.ebitda, operator := some "=" },
        { label := "Depreciation & Amortization", value := p.da, operator := some "-" },
        { label := "EBIT", value := p.ebit, operator := some "=" } ] },
    netIncome :=
    { metricKey := "netIncome", metricLabel := "Net Income",
      finalValue := p.netIncome,
      steps :=
      [ { label := "EBIT", value := p.ebit, operator := some "=" },
        { label := "Interest Expense", value := p.interest, operator := some "-" },
        { label := "EBT (Earnings Before Tax)", value := p.ebt, operator := some "=" },
        { label := "Taxes", value := p.tax, operator := some "-" },
        { label := "Net Income", value := p.netIncome, operator := some "=" } ] },
    ufcf :=
    { metricKey := "ufcf", metricLabel := "Unlevered Free Cash Flow (UFCF)",
      finalValue := p.ufcf,
      steps :=
      [ { label := "EBIT", value := p.ebit, operator := some "=" },
        -- the source recomputes this tax figure instead of reusing p.nopat:
        -- Math.round(ebit > 0 ? ebit * safeNumber(model.taxRate, 21) / 100 : 0)
        { label := "Taxes on EBIT",
          value := jround (if p.ebit > 0 then p.ebit * safeNumber model.taxRate 21 / 100 else 0),
          operator := some "-" },
        { label := "NOPAT (EBIAT)", value := p.nopat, operator := some "=" },
        { label := "Depreciation & Amortization", value := p.da, operator := some "+" },
        { label := "Change in Net Working Capital", value := p.changeInNwc, operator := some "-" },
        { label := "Capital Expenditures", value := p.capex, operator := some "-" },
        { label := "Unlevered Free Cash Flow", value := p.ufcf, operator := some "=" } ] } }

/-- calculateBreakdowns(model, projections, valuation). -/
noncomputable def calculateBreakdowns (model : Model)
    (projections : List YearProjection) (valuation : ValuationOutput) :
    ModelBreakdowns :=
  let yearlyBreakdowns := projections.map (yearBreakdown model)
  let sumPvOfFcf := (projections.map fun p => p.pvOfFcf).sum
  let wacc := max 0.01 (safeNumber model.wacc 10 / 100)
  let terminalGrowth := safeNumber model.terminalGrowthRate 2 / 100
  let lastFcf := if projections.isEmpty then 0 else projections.getLast!.fcf
  let debt := safeNumber model.debtBalance 0
  let pvOfTv :=
    if wacc > 0 then valuation.terminalValue / jpow (1 + wacc) (projections.length : ℚ)
    else 0
  { yearlyBreakdowns := yearlyBreakdowns,
    valuationBreakdown :=
    { pvOfFcf :=
      { metricKey := "pvOfFcf", metricLabel := "Present Value of FCF",
        finalValue := sumPvOfFcf,
        steps := projections.enum.map fun ip =>
          { label := "Year " ++ toString ip.2.year ++ " FCF PV",
            value := ip.2.pvOfFcf } },
      terminalValue :=
      { metricKey := "terminalValue", metricLabel := "Terminal Value",
        finalValue := valuation.terminalValue,
        steps :=
        [ { label := "Year 5 FCF", value := lastFcf, operator := some "=" },
          { label := "Terminal Growth Rate", value := terminalGrowth * 100 },
          { label := "WACC", value := wacc * 100 },
          { label := "Terminal Value", value := valuation.terminalValue, operator := some "=" } ] },
      enterpriseValue :=
      { metricKey := "enterpriseValue", metricLabel := "Enterprise Value",
        finalValue := valuation.enterpriseValue,
        steps :=
        [ { label := "Sum of PV of FCF", value := sumPvOfFcf, operator := some "=" },
          { label := "PV of Terminal Value", value := pvOfTv, operator := some "+" },
          { label := "Enterprise Value", value := valuation.enterpriseValue, operator := some "=" } ] },
      equityValue :=
      { metricKey := "equityValue", metricLabel := "Equity Value",
        finalValue := valuation.equityValue,
        steps :=
        [ { label := "Enterprise Value", value := valuation.enterpriseValue, operator := some "=" },
          -- the value shown under the "Less: Net Debt" label is the gross
          -- debt balance; cashBalance does not enter this step
          { label := "Less: Net Debt", value := debt, operator := some "-" },
          { label := "Equity Value", value := valuation.equityValue, operator := some "=" } ] } } }

/-- One two-way sensitivity grid. -/
structure SensitivityGrid where
  title : String
  rowLabel : String
  colLabel : String
  rowValues : List ℝ
  colValues : List ℝ
  data : List (List ℝ)
  highlightedRow : ℕ
  highlightedCol : ℕ

/-- The three grids returned by calculateSensitivity. -/
structure SensitivityOutput where
  waccVsGrowth : SensitivityGrid
  entryVsExit : SensitivityGrid
  revenueGrowthVsMargin : SensitivityGrid

/-- calculateSensitivity(model, projections).  Overriding a field with
`String(x)` and re-reading it through `Number(...)` round-trips the value,
so an overridden field is modelled as `some x`. -/
noncomputable def calculateSensitivity (model : Model)
    (projections : List YearProjection) : SensitivityOutput :=
  let baseWacc := safeNumber model.wacc 10
  let baseGrowth := safeNumber model.terminalGrowthRate 2
  let waccValues := [baseWacc - 2, baseWacc - 1, baseWacc, baseWacc + 1, baseWacc + 2]
  let growthValues := [baseGrowth - 1, baseGrowth - 0.5, baseGrowth, baseGrowth + 0.5, baseGrowth + 1]
  let waccVsGrowthData := waccValues.map fun w =>
    growthValues.map fun g =>
      let tempModel := { model with wacc := some w, terminalGrowthRate := some g }
      let tempProjections := calculateProjections tempModel
      let tempValuation := (calculateValuation tempModel tempProjections).2
      jround tempValuation.enterpriseValue
  let entryValues : List ℝ := [6, 7, 8, 9, 10]
  let exitValues : List ℝ := [10, 11, 12, 13, 14]
  let lastEbitda := if projections.isEmpty then 0 else projections.getLast!.ebitda
  let entryVsExitData := entryValues.map fun entry =>
    exitValues.map fun ex =>
      let entryEv := lastEbitda * entry
      let exitEv := lastEbitda * ex * jpow (1 + safeNumber model.growthRate 15 / 100) 5
      let moic := if entryEv > 0 then exitEv / entryEv else 0
      jround (moic * 100) / 100
  let revenueGrowthValues : List ℝ := [10, 12.5, 15, 17.5, 20]
  let marginValues : List ℝ := [25, 27.5, 30, 32.5, 35]
  let growthVsMarginData := revenueGrowthValues.map fun revGrowth =>
    marginValues.map fun margin =>
      let oM := some (100 - margin - safeNumber model.cogsMargin 40)
      let tempModel := { model with growthRate := some revGrowth, opexMargin := oM }
      let tempProjections := calculateProjections tempModel
      let tempValuation := (calculateValuation tempModel tempProjections).2
      jround tempValuation.enterpriseValue
  { waccVsGrowth :=
    { title := "Enterprise Value Sensitivity: WACC vs Terminal Growth",
      rowLabel := "WACC (%)", colLabel := "Terminal Growth (%)",
      rowValues := waccValues, colValues := growthValues,
      data := waccVsGrowthData, highlightedRow := 2, highlightedCol := 2 },
    entryVsExit :=
    { title := "MOIC Sensitivity: Entry Multiple vs Exit Multiple",
      rowLabel := "Entry Multiple (x)", colLabel := "Exit Multiple (x)",
      rowValues := entryValues, colValues := exitValues,
      data := entryVsExitData, highlightedRow := 2, highlightedCol := 2 },
    revenueGrowthVsMargin :=
    { title := "Enterprise Value: Revenue Growth vs EBITDA Margin",
      rowLabel := "Revenue Growth (%)", colLabel := "EBITDA Margin (%)",
      rowValues := revenueGrowthValues, colValues := marginValues,
      data := growthVsMarginData, highlightedRow := 2, highlightedCol := 2 } }

/-- The LBO assumptions record of the Excel export route (`lboAssumptions`).
`none` models an absent record or field. -/
structure LboAssumptions where
  entryMultiple : Option ℚ := none
  exitMultiple : Option ℚ := none
  holdingPeriod : Option ℕ := none
  debtPercent : Option ℚ := none
  interestRate : Option ℚ := none
  annualDebtPaydown : Option ℚ := none
  seniorDebtMultiple : Option ℚ := none
  mezDebtMultiple : Option ℚ := none
  seniorDebtRate : Option ℚ := none
  mezDebtRate : Option ℚ := none

/-- `Number(x) || d` : the fallback also fires on 0, since 0 is falsy. -/
def numOr (v : Option ℚ) (d : ℚ) : ℚ :=
  match v with
  | none => d
  | some x => if x = 0 then d else x

/-- `x || d` on the holding period. -/
def natOr (v : Option ℕ) (d : ℕ) : ℕ :=
  match v with
  | none => d
  | some x => if x = 0 then d else x

/-- The ebitda / capex / changeInNwc fields the debt schedule reads from a
projected year, as rationals. -/
structure LboYearInput where
  ebitda : ℚ
  capex : ℚ
  changeInNwc : ℚ

/-- One year of the LBO debt schedule. -/
structure DebtScheduleYear where
  year : ℕ := 0
  beginSenior : ℚ := 0
  seniorInterest : ℚ := 0
  seniorAmort : ℚ := 0
  endSenior : ℚ := 0
  beginMez : ℚ := 0
  mezInterest : ℚ := 0
  mezAmort : ℚ := 0
  endMez : ℚ := 0
  ebitda : ℚ := 0
  capex : ℚ := 0
  wcChange : ℚ := 0
  fcf : ℚ := 0
  cashSweep : ℚ := 0
  distributableFcf : ℚ := 0
  totalDebtService : ℚ := 0
deriving DecidableEq

instance : Inhabited DebtScheduleYear := ⟨{}⟩

/-- The year loop building the LBO debt schedule.  `seniorDebt` is the
initial senior tranche (mandatory amortization is a fixed percentage of it);
the loop runs over `min holdingPeriod projections.length` years, which is
modelled by iterating over `projs.take holdingPeriod`. -/
def debtScheduleFrom (seniorDebt seniorRate mezRate paydownPct : ℚ) :
    ℕ → ℚ → ℚ → List LboYearInput → List DebtScheduleYear
  | _, _, _, [] => []
  | yr, seniorBalance, mezBalance, proj :: rest =>
    let beginSenior := seniorBalance
    let beginMez := mezBalance
    let seniorInt := beginSenior * (seniorRate / 100)
    let mezInt := beginMez * (mezRate / 100)
    let mandatoryAmort := seniorDebt * (paydownPct / 100)
    let seniorAmort := min mandatoryAmort beginSenior
    let ebitda := proj.ebitda
    -- `proj.capex || (ebitda * 0.08)` : 0 is falsy
    let capex := if proj.capex = 0 then ebitda * 0.08 else proj.capex
    -- `proj.changeInNwc || 0` : the identity on an exact number
    let wcChange := proj.changeInNwc
    let taxes := max 0 ((ebitda - seniorInt - mezInt) * 0.25)
    let fcf := ebitda - seniorInt - mezInt - taxes - capex - wcChange - seniorAmort
    let cashSweep := max 0 (min (fcf * 0.5) (beginSenior - seniorAmort))
    let distributableFcf := fcf - cashSweep
    let endSenior := max 0 (beginSenior - seniorAmort - cashSweep)
    { year := yr + 1, beginSenior := beginSenior, seniorInterest := seniorInt,
      seniorAmort := seniorAmort, endSenior := endSenior,
      beginMez := beginMez, mezInterest := mezInt, mezAmort := 0,
      endMez := beginMez, ebitda := ebitda, capex := capex,
      wcChange := wcChange, fcf := fcf, cashSweep := cashSweep,
      distributableFcf := distributableFcf,
      totalDebtService := seniorInt + mezInt + seniorAmort }
      :: debtScheduleFrom seniorDebt seniorRate mezRate paydownPct
           (yr + 1) endSenior beginMez rest

/-- The entry capital structure of the LBO sheet. -/
structure LboEntry where
  entryEbitda : ℚ
  entryEv : ℚ
  totalDebt : ℚ
  seniorDebt : ℚ
  mezDebt : ℚ
  equityContribution : ℚ

/-- Entry calculations of the LBO sheet (sources and uses). -/
def lboEntry (lbo : LboAssumptions) (projs : List LboYearInput) : LboEntry :=
  let entryMultiple := numOr lbo.entryMultiple 8
  let debtPercent := numOr lbo.debtPercent 60
  let seniorDebtMultiple := numOr lbo.seniorDebtMultiple 4
  let mezDebtMultiple := numOr lbo.mezDebtMultiple 1.5
  -- `projections[0]?.ebitda || 0`
  let entryEbitda := match projs with | [] => 0 | p :: _ => p.ebitda
  let entryEv := entryEbitda * entryMultiple
  let totalDebt := entryEv * (debtPercent / 100)
  let seniorDebt := min (entryEbitda * seniorDebtMultiple) totalDebt
  let mezDebt := min (entryEbitda * mezDebtMultiple) (totalDebt - seniorDebt)
  { entryEbitda := entryEbitda, entryEv := entryEv, totalDebt := totalDebt,
    seniorDebt := seniorDebt, mezDebt := mezDebt,
    equityContribution := entryEv - seniorDebt - mezDebt }

/-- The full debt schedule of the LBO sheet. -/
def lboDebtSchedule (lbo : LboAssumptions) (projs : List LboYearInput) :
    List DebtScheduleYear :=
  let e := lboEntry lbo projs
  let holdingPeriod := natOr lbo.holdingPeriod 5
  debtScheduleFrom e.seniorDebt (numOr lbo.seniorDebtRate 6)
    (numOr lbo.mezDebtRate 12) (numOr lbo.annualDebtPaydown 6)
    0 e.seniorDebt e.mezDebt (projs.take holdingPeriod)

/-- The fixed mandatory senior amortization of a schedule. -/
def lboMandatoryAmort (lbo : LboAssumptions) (projs : List LboYearInput) : ℚ :=
  (lboEntry lbo projs).seniorDebt * (numOr lbo.annualDebtPaydown 6 / 100)

/-- One iteration step plus clamping of the Newton-Raphson IRR loop. -/
def irrGo (flows : List ℚ) : ℚ → ℕ → ℚ
  | rate, 0 => rate
  | rate, fuel + 1 =>
    let npv := (flows.enum.map fun tf => tf.2 / (1 + rate) ^ tf.1).sum
    let dnpv := (flows.enum.map fun tf => -((tf.1 : ℚ) * tf.2 / (1 + rate) ^ (tf.1 + 1))).sum
    if |npv| < 0.0001 then rate
    else if |dnpv| < 0.0001 then rate
    else
      let next := rate - npv / dnpv
      let next := if next < -0.99 then -0.99 else next
      let next := if next > 10 then 10 else next
      irrGo flows next fuel

/-- calculateIRR(flows): Newton-Raphson from a 15% initial guess, at most
100 iterations, result in percent. -/
def calculateIRR (flows : List ℚ) : ℚ := irrGo flows 0.15 100 * 100

lemma applyDiscounts_length (w : ℝ) (u : Bool) :
    ∀ (i : ℕ) (ps : List YearProjection),
      (applyDiscounts w u i ps).length = ps.length := by
  intro i ps
  induction ps generalizing i with
  | nil => simp [applyDiscounts]
  | cons p rest ih => simp [applyDiscounts, ih]

lemma applyDiscounts_getElem? (w : ℝ) (u : Bool) :
    ∀ (i n : ℕ) (ps : List YearProjection),
      (applyDiscounts w u i ps)[n]? = ps[n]?.map (discountUpdate w u (i + n)) := by
  intro i n ps
  induction ps generalizing i n with
  | nil => simp [applyDiscounts]
  | cons p rest ih =>
      cases n with
      | zero => simp [applyDiscounts]
      | succ k =>
          have h1 : i + 1 + k = i + (k + 1) := by omega
          simp only [applyDiscounts, List.getElem?_cons_succ, ih (i + 1) k, h1]

lemma applyDiscounts_getLast? (w : ℝ) (u : Bool) (i : ℕ)
    (ps : List YearProjection) :
    (applyDiscounts w u i ps).getLast? =
      ps.getLast?.map (discountUpdate w u (i + (ps.length - 1))) := by
  rw [List.getLast?_eq_getElem?, List.getLast?_eq_getElem?,
    applyDiscounts_length, applyDiscounts_getElem?]

lemma discountUpdate_ufcf (w : ℝ) (u : Bool) (i : ℕ) (p : YearProjection) :
    (discountUpdate w u i p).ufcf = p.ufcf := rfl

lemma discountUpdate_ebitda (w : ℝ) (u : Bool) (i : ℕ) (p : YearProjection) :
    (discountUpdate w u i p).ebitda = p.ebitda := rfl

lemma applyDiscounts_getLast!_ufcf (w : ℝ) (u : Bool) (i : ℕ)
    (ps : List YearProjection) (h : ps ≠ []) :
    (applyDiscounts w u i ps).getLast!.ufcf = ps.getLast!.ufcf ∧
    (applyDiscounts w u i ps).getLast!.ebitda = ps.getLast!.ebitda := by
  have ha := List.getLast?_eq_getLast_of_ne_nil h
  have h2 : (applyDiscounts w u i ps).getLast? =
      some (discountUpdate w u (i + (ps.length - 1)) (ps.getLast h)) := by
    rw [applyDiscounts_getLast?, ha, Option.map_some']
  rw [List.getLast!_of_getLast? ha, List.getLast!_of_getLast? h2]
  exact ⟨discountUpdate_ufcf .., discountUpdate_ebitda ..⟩

lemma debtScheduleFrom_sweep (sd sr mr pct : ℚ) :
    ∀ (yr : ℕ) (sb mb : ℚ) (projs : List LboYearInput),
      ∀ d ∈ debtScheduleFrom sd sr mr pct yr sb mb projs,
        d.cashSweep ≤ d.beginSenior - d.seniorAmort ∧ 0 ≤ d.endSenior := by
  intro yr sb mb projs
  induction projs generalizing yr sb mb with
  | nil => simp [debtScheduleFrom]
  | cons pr rest ih =>
      intro d hd
      simp only [debtScheduleFrom, List.mem_cons] at hd
      rcases hd with hd | hd
      · subst hd
        constructor
        · simp only
          have hbal : (0 : ℚ) ≤ sb - min (sd * (pct / 100)) sb :=
            sub_nonneg.mpr (min_le_right _ _)
          exact max_le hbal (min_le_right _ _)
        · simp only
          exact le_max_left _ _
      · exact ih _ _ _ d hd

/-- C1: the per-year discount periods are `i + 0.5` (mid-year) and `i + 1`
(full-year) as claimed, but the terminal-value discount period is the full
`n` in BOTH modes: the source line `useMidYear ? projections.length :
projections.length` has two identical branches, so the claimed mid-year
terminal period `n - 0.5` never occurs. -/
theorem c1_discount_periods :
    (∀ i : ℕ, discountPeriod true i = i + 0.5 ∧ discountPeriod false i = i + 1) ∧
    (∀ n : ℕ, tvDiscountPeriod true n = n ∧ tvDiscountPeriod false n = n) ∧
    tvDiscountPeriod true 5 ≠ 5 - 0.5 := by
  refine ⟨fun i => ⟨rfl, rfl⟩, fun n => ⟨rfl, rfl⟩, by norm_num [tvDiscountPeriod]⟩

unseal Rat.add Rat.mul Rat.sub Rat.inv Rat.ofScientific in
/-- C5 (counterexample): for the series `[-100, 0, 0, 0, 0, 100*(1+r)^5]`
with r = -98% (inside the clamp range [-99%, 1000%]), the solver does NOT
return a rate within 0.01 of r: the derivative-magnitude guard
`|dnpv| < 1e-4` fires at the 15% initial guess and the solver returns 15. -/
theorem c5_counterexample :
    calculateIRR [-100, 0, 0, 0, 0, 100 * (1 + (-98 : ℚ) / 100) ^ (5 : ℕ)] = 15 ∧
    ¬ |calculateIRR [-100, 0, 0, 0, 0, 100 * (1 + (-98 : ℚ) / 100) ^ (5 : ℕ)] -
        (-98)| ≤ 0.01 := by
  constructor
  · decide
  · decide

unseal Rat.add Rat.mul Rat.sub Rat.inv Rat.ofScientific in
/-- C5 (amended): for the same family of series the solver does recover the
rate to within 0.01 percentage points when its Newton iteration converges
via the `|npv| < 1e-4` test: with r = 16% it converges after two Newton
steps and returns a rate within 0.01 of 16. -/
theorem c5_amended :
    |calculateIRR [-100, 0, 0, 0, 0, 100 * (1 + (16 : ℚ) / 100) ^ (5 : ℕ)] -
      16| ≤ 0.01 := by
  decide

/-- The concrete LBO assumptions of the C6 counterexample: a 90% annual
mandatory paydown makes the year-2 beginning senior balance smaller than
the fixed mandatory amortization amount. -/
def c6lbo : LboAssumptions :=
  { entryMultiple := some 8, debtPercent := some 60,
    seniorDebtMultiple := some 4, mezDebtMultiple := some (3/2),
    annualDebtPaydown := some 90, holdingPeriod := some 2 }

/-- Projection inputs (ebitda, capex, changeInNwc) for the C6 counterexample. -/
def c6projs : List LboYearInput := [⟨25, 1, 0⟩, ⟨25, 1, 0⟩]

unseal Rat.add Rat.mul Rat.sub Rat.inv Rat.ofScientific in
/-- C6 (counterexample): with a 90% annual paydown, in year 2 the beginning
senior balance (10) is below the fixed mandatory amortization (90), so the
cash sweep (0) exceeds `beginSenior - mandatoryAmort` (-80): the claimed
inequality fails even though all balances and percentages are nonnegative. -/
theorem c6_counterexample :
    ¬ ∀ d ∈ lboDebtSchedule c6lbo c6projs,
        d.cashSweep ≤ d.beginSenior - lboMandatoryAmort c6lbo c6projs ∧
        0 ≤ d.endSenior := by
  decide

/-- C6 (amended): in every year of the LBO debt schedule the cash sweep is
bounded by `beginSenior - seniorAmort`, where `seniorAmort =
min(mandatoryAmort, beginSenior)` is the amortization actually charged, and
the ending senior balance is never negative - with no hypotheses on the
inputs at all. -/
theorem c6_amended (lbo : LboAssumptions) (projs : List LboYearInput) :
    ∀ d ∈ lboDebtSchedule lbo projs,
      d.cashSweep ≤ d.beginSenior - d.seniorAmort ∧ 0 ≤ d.endSenior := by
  intro d hd
  simp only [lboDebtSchedule] at hd
  exact debtScheduleFrom_sweep _ _ _ _ _ _ _ _ d hd

unseal Rat.add Rat.mul Rat.sub Rat.inv Rat.ofScientific in
/-- C6 (witness): the amended bound instantiated on the year-1 row of the
concrete schedule of the counterexample. -/
theorem c6_amended_witness :
    (lboDebtSchedule c6lbo c6projs).head! ∈ lboDebtSchedule c6lbo c6projs ∧
    ((lboDebtSchedule c6lbo c6projs).head!.cashSweep ≤
        (lboDebtSchedule c6lbo c6projs).head!.beginSenior -
          (lboDebtSchedule c6lbo c6projs).head!.seniorAmort ∧
      0 ≤ (lboDebtSchedule c6lbo c6projs).head!.endSenior) :=
  ⟨by decide, c6_amended c6lbo c6projs _ (by decide)⟩

lemma jround_eq (x : ℝ) (n : ℤ) (h1 : (n : ℝ) ≤ x + 1/2) (h2 : x + 1/2 < n + 1) :
    jround x = n := by
  have : Int.floor (x + 1/2) = n := by
    rw [Int.floor_eq_iff]
    · exact ⟨h1, h2⟩
  rw [jround, this]

lemma jround_ge (x : ℝ) (n : ℤ) (h1 : (n : ℝ) ≤ x + 1/2) : (n : ℝ) ≤ jround x := by
  unfold jround
  exact_mod_cast Int.le_floor.mpr (by exact_mod_cast h1)

/-- The revenue trajectory of the projection loop on its own. -/
noncomputable def revenueSeq (P : ProjParams) : ℝ → ℕ → List ℝ
  | _, 0 => []
  | r, fuel + 1 => r :: revenueSeq P (nextRevenue P r) fuel

lemma projFrom_map_revenue (P : ProjParams) :
    ∀ (fuel year : ℕ) (r nwc : ℝ),
      (projFrom P year r nwc fuel).map (fun p => p.revenue) = revenueSeq P r fuel := by
  intro fuel
  induction fuel with
  | zero => intro year r nwc; rfl
  | succ m ih =>
      intro year r nwc
      simp only [projFrom, List.map_cons, revenueSeq]
      rw [show (projYear P year r nwc).revenue = r from rfl, ih]

lemma revenueSeq_head? (P : ProjParams) (r : ℝ) (m : ℕ) :
    (revenueSeq P r (m + 1)).head? = some r := rfl

lemma revenueSeq_chain (P : ProjParams) (hg : 0 < P.growthRate) :
    ∀ (fuel : ℕ) (r : ℝ) (k : ℤ), r = k → 1 ≤ k → 50 ≤ r * P.growthRate →
      List.Chain' (· < ·) (revenueSeq P r fuel) := by
  intro fuel
  induction fuel with
  | zero => intro r k _ _ _; simp [revenueSeq]
  | succ m ih =>
      intro r k hr hk hbig
      have hrpos : (0 : ℝ) < r := by
        rw [hr]; exact_mod_cast lt_of_lt_of_le zero_lt_one hk
      -- the rounded compounded revenue is at least k + 1
      have hincr : ((k : ℝ) + 1) ≤ jround (r * (1 + P.growthRate / 100)) := by
        have hhalf : (1 : ℝ) / 2 ≤ r * P.growthRate / 100 / 1 := by
          rw [div_le_div_iff₀ (by norm_num) (by norm_num)]
          linarith
        have : ((k + 1 : ℤ) : ℝ) ≤ r * (1 + P.growthRate / 100) + 1/2 := by
          push_cast
          rw [← hr]
          have : r * (1 + P.growthRate / 100) = r + r * P.growthRate / 100 := by ring
          rw [this]
          linarith [hhalf]
        have := jround_ge _ _ this
        push_cast at this
        linarith
      have hnext : nextRevenue P r = jround (r * (1 + P.growthRate / 100)) := by
        unfold nextRevenue
        rw [if_neg]
        push_neg
        have : (0 : ℝ) < (k : ℝ) + 1 := by
          have : (0:ℝ) < r := hrpos
          rw [hr] at this
          linarith
        linarith [hincr]
      have hlt : r < nextRevenue P r := by
        rw [hnext]
        linarith [hincr, hr]
      rw [revenueSeq]
      rw [List.chain'_cons']
      constructor
      · intro y hy
        cases m with
        | zero => simp [revenueSeq] at hy
        | succ m2 =>
            rw [revenueSeq_head?] at hy
            cases hy
            exact hlt
      · exact ih (nextRevenue P r) (Int.floor (r * (1 + P.growthRate / 100) + 1/2))
          (by rw [hnext]; rfl)
          (by
            have : ((1 : ℤ) : ℝ) ≤ jround (r * (1 + P.growthRate / 100)) := by
              have hge1 : ((k : ℝ) + 1) ≥ 2 := by
                have : (1 : ℝ) ≤ (k : ℝ) := by exact_mod_cast hk
                linarith
              push_cast
              linarith [hincr]
            unfold jround at this
            exact_mod_cast this)
          (by
            have hmono : r * P.growthRate ≤ nextRevenue P r * P.growthRate :=
              mul_le_mul_of_nonneg_right (le_of_lt hlt) (le_of_lt hg)
            linarith [hmono])

/-- The C8 counterexample model: tiny positive revenue, positive growth. -/
def c8model : Model := { startingRevenue := some 1, growthRate := some 10 }

/-- C8 (counterexample): with startingRevenue = 1 and growthRate = 10 (both
positive), every projected revenue is 1, because the rounded increment
round(1 x 1.1) = 1 never moves: the claimed strict increase fails. -/
theorem c8_counterexample :
    0 < safeNumber c8model.startingRevenue 1000000 ∧
    0 < safeNumber c8model.growthRate 0 ∧
    ((calculateProjections c8model).map fun p => p.revenue) = [1, 1, 1, 1, 1] ∧
    ¬ List.Chain' (· < ·) ((calculateProjections c8model).map fun p => p.revenue) := by
  have hstep : nextRevenue (projParams c8model) 1 = 1 := by
    unfold nextRevenue
    have hg : (projParams c8model).growthRate = 10 := rfl
    rw [hg]
    have h1 : jround ((1 : ℝ) * (1 + 10 / 100)) = (1 : ℤ) := by
      apply jround_eq <;> norm_num
    rw [h1]
    norm_num
  have hmap : ((calculateProjections c8model).map fun p => p.revenue)
      = [1, 1, 1, 1, 1] := by
    unfold calculateProjections
    rw [projFrom_map_revenue]
    have hs : safeNumber c8model.startingRevenue 1000000 = 1 := rfl
    rw [hs, if_pos (by norm_num : (1:ℝ) > 0)]
    simp only [revenueSeq, hstep]
  refine ⟨by norm_num [safeNumber, c8model], by norm_num [safeNumber, c8model],
    hmap, ?_⟩
  intro hch
  rw [hmap] at hch
  rw [List.chain'_cons] at hch
  exact lt_irrefl _ hch.1

/-- C8 (amended): revenue is strictly increasing across the projected years
provided startingRevenue is a positive integer and the first rounded
increment cannot vanish: growthRate > 0 and startingRevenue x growthRate
at least 50 (so revenue x growthRate / 100 is at least 0.5 in every year).
For smaller revenues rounding can stall the trajectory, as the
counterexample shows. -/
theorem c8_amended (m : Model) (k : ℤ)
    (hs : safeNumber m.startingRevenue 1000000 = (k : ℝ))
    (hk : 1 ≤ k)
    (hg : 0 < safeNumber m.growthRate 0)
    (hbig : 50 ≤ (k : ℝ) * safeNumber m.growthRate 0) :
    List.Chain' (· < ·) ((calculateProjections m).map fun p => p.revenue) := by
  unfold calculateProjections
  rw [projFrom_map_revenue, hs,
    if_pos (by exact_mod_cast lt_of_lt_of_le zero_lt_one hk : (k:ℝ) > 0)]
  exact revenueSeq_chain (projParams m) hg 5 (k : ℝ) k rfl hk hbig

/-- The C8 witness model: the concrete base-case assumptions. -/
def c8wModel : Model := { startingRevenue := some 1000000, growthRate := some 15 }

/-- C8 (witness): the amended monotonicity statement holds at the concrete
model with startingRevenue 1,000,000 and growthRate 15. -/
theorem c8_amended_witness :
    safeNumber c8wModel.startingRevenue 1000000 = ((1000000 : ℤ) : ℝ) ∧
    (1 : ℤ) ≤ 1000000 ∧
    0 < safeNumber c8wModel.growthRate 0 ∧
    50 ≤ ((1000000 : ℤ) : ℝ) * safeNumber c8wModel.growthRate 0 ∧
    List.Chain' (· < ·) ((calculateProjections c8wModel).map fun p => p.revenue) :=
  ⟨by norm_num [safeNumber, c8wModel], by norm_num,
   by norm_num [safeNumber, c8wModel], by norm_num [safeNumber, c8wModel],
   c8_amended c8wModel 1000000 (by norm_num [safeNumber, c8wModel]) (by norm_num)
     (by norm_num [safeNumber, c8wModel]) (by norm_num [safeNumber, c8wModel])⟩

/-- The C2 counterexample model: an explicit exit multiple of 12. -/
def c2model : Model := { exitMultiple := some 12 }

/-- C2 (counterexample): the entry-vs-exit grid is NOT centered on the
model's current multiple assumption: with exitMultiple = 12 (the source's
own base entry value, safeNumber(model.exitMultiple, 8), is 12), the center
of the hard-coded entry axis [6,7,8,9,10] is 8. -/
theorem c2_counterexample :
    safeNumber c2model.exitMultiple 8 = 12 ∧
    (calculateSensitivity c2model
        (calculateProjections c2model)).entryVsExit.rowValues[2]! = 8 ∧
    (8 : ℝ) ≠ 12 := by
  refine ⟨by norm_num [safeNumber, c2model], rfl, by norm_num⟩

/-- C2 (amended): only the WACC-vs-terminal-growth grid has its five row and
column values centered on the current assumptions (wacc plus/minus 2 in
1-point steps, terminal growth plus/minus 1 in 0.5-point steps), and its
center cell equals the unperturbed base enterprise value rounded to the
nearest integer; the entry-vs-exit grid uses the fixed axes [6..10] x
[10..14] and the growth-vs-margin grid the fixed axes [10..20] x [25..35],
independent of the model's current assumption values. -/
theorem c2_amended (m : Model) (ps : List YearProjection) :
    (calculateSensitivity m ps).waccVsGrowth.rowValues =
      [safeNumber m.wacc 10 - 2, safeNumber m.wacc 10 - 1, safeNumber m.wacc 10,
       safeNumber m.wacc 10 + 1, safeNumber m.wacc 10 + 2] ∧
    (calculateSensitivity m ps).waccVsGrowth.colValues =
      [safeNumber m.terminalGrowthRate 2 - 1, safeNumber m.terminalGrowthRate 2 - 0.5,
       safeNumber m.terminalGrowthRate 2, safeNumber m.terminalGrowthRate 2 + 0.5,
       safeNumber m.terminalGrowthRate 2 + 1] ∧
    ((calculateSensitivity m ps).waccVsGrowth.data[2]!)[2]! =
      jround (calculateValuation m (calculateProjections m)).2.enterpriseValue ∧
    (calculateSensitivity m ps).entryVsExit.rowValues = [6, 7, 8, 9, 10] ∧
    (calculateSensitivity m ps).entryVsExit.colValues = [10, 11, 12, 13, 14] ∧
    (calculateSensitivity m ps).revenueGrowthVsMargin.rowValues =
      [10, 12.5, 15, 17.5, 20] ∧
    (calculateSensitivity m ps).revenueGrowthVsMargin.colValues =
      [25, 27.5, 30, 32.5, 35] :=
  ⟨rfl, rfl, rfl, rfl, rfl, rfl, rfl⟩

/-- C9: the Gordon Growth terminal value equals
`lastUfcf * (1 + terminalGrowth) / (wacc - terminalGrowth)` exactly when
`wacc - terminalGrowth > 0.001` (wacc floored at 0.01), and equals 0
whenever `wacc - terminalGrowth ≤ 0.001`; in the exact real-number model
no NaN or Infinity can arise since the division is guarded. -/
theorem c9_gordon_guard (m : Model) (ps : List YearProjection) (h : ps ≠ []) :
    (max 0.01 (safeNumber m.wacc 10 / 100) - safeNumber m.terminalGrowthRate 2 / 100 > 0.001 →
        (calculateValuation m ps).2.terminalValueGordon =
          ps.getLast!.ufcf * (1 + safeNumber m.terminalGrowthRate 2 / 100) /
            (max 0.01 (safeNumber m.wacc 10 / 100) -
              safeNumber m.terminalGrowthRate 2 / 100)) ∧
    (max 0.01 (safeNumber m.wacc 10 / 100) - safeNumber m.terminalGrowthRate 2 / 100 ≤ 0.001 →
        (calculateValuation m ps).2.terminalValueGordon = 0) := by
  cases ps with
  | nil => exact absurd rfl h
  | cons p rest =>
    have hfr := (applyDiscounts_getLast!_ufcf (max 0.01 (safeNumber m.wacc 10 / 100))
      (decide (m.useMidYearConvention ≠ some false)) 0 (p :: rest)
      (List.cons_ne_nil p rest)).1
    constructor
    · intro hgt
      simp only [calculateValuation, List.isEmpty_cons, Bool.false_eq_true,
        if_false, if_pos hgt]
      exact congrArg (fun x => x * _ / _) hfr
    · intro hle
      simp only [calculateValuation, List.isEmpty_cons, Bool.false_eq_true,
        if_false, if_neg (not_lt.mpr hle)]

lemma jpow_one (b : ℝ) : jpow b 1 = b := by
  unfold jpow
  rw [Rat.cast_one, Real.rpow_one]

lemma jpow_natCast (b : ℝ) (n : ℕ) : jpow b n = b ^ n := by
  unfold jpow
  rw [Rat.cast_natCast, Real.rpow_natCast]

lemma calculateValuation_fst (m : Model) (p : YearProjection)
    (rest : List YearProjection) :
    (calculateValuation m (p :: rest)).1 =
      applyDiscounts (max 0.01 (safeNumber m.wacc 10 / 100))
        (decide (m.useMidYearConvention ≠ some false)) 0 (p :: rest) := rfl

/-- Forget the three fields the valuation loop writes (proof helper for the
frame property). -/
noncomputable def eraseDiscountFields (p : YearProjection) : YearProjection :=
  { p with discountFactor := 0, fcf := 0, pvOfFcf := 0 }

lemma applyDiscounts_map_erase (w : ℝ) (u : Bool) :
    ∀ (i : ℕ) (ps : List YearProjection),
      (applyDiscounts w u i ps).map eraseDiscountFields =
        ps.map eraseDiscountFields := by
  intro i ps
  induction ps generalizing i with
  | nil => rfl
  | cons p rest ih =>
      simp only [applyDiscounts, List.map_cons, ih]
      rfl

lemma applyDiscounts_map_fcf (w : ℝ) (u : Bool) :
    ∀ (i : ℕ) (ps : List YearProjection),
      (applyDiscounts w u i ps).map (fun p => p.fcf) =
        ps.map (fun p => p.ufcf) := by
  intro i ps
  induction ps generalizing i with
  | nil => rfl
  | cons p rest ih =>
      simp only [applyDiscounts, List.map_cons, ih]
      rfl

/-- The C7 counterexample inputs: a model with the mid-year convention
switched off and a single projection carrying UFCF 100. -/
def c7model : Model := { useMidYearConvention := some false }

/-- The single projected year used by the C7 counterexample (all fields at
their freshly-built defaults, discountFactor = 0 in particular). -/
def c7proj : YearProjection := { ufcf := 100 }

/-- C7 (counterexample): calculateValuation does NOT leave the projection
array unchanged: on input with discountFactor 0 the array element comes
back with discountFactor 1/1.1. -/
theorem c7_counterexample :
    (calculateValuation c7model [c7proj]).1.headI.discountFactor = 1 / 1.1 ∧
    c7proj.discountFactor = 0 ∧
    (calculateValuation c7model [c7proj]).1 ≠ [c7proj] := by
  have hW : max (0.01 : ℝ) (safeNumber c7model.wacc 10 / 100) = 0.1 := by
    norm_num [safeNumber, c7model, max_def]
  have hdf : (calculateValuation c7model [c7proj]).1.headI.discountFactor = 1 / 1.1 := by
    rw [calculateValuation_fst]
    show (discountUpdate (max 0.01 (safeNumber c7model.wacc 10 / 100))
      (decide (c7model.useMidYearConvention ≠ some false)) 0 c7proj).discountFactor = 1 / 1.1
    rw [hW]
    show (if (1 : ℝ) + 0.1 > 0 then
        1 / jpow (1 + 0.1) (discountPeriod (decide (c7model.useMidYearConvention ≠ some false)) 0)
      else 0) = 1 / 1.1
    have hmid : decide (c7model.useMidYearConvention ≠ some false) = false := by
      simp [c7model]
    rw [hmid]
    have hper : discountPeriod false 0 = 1 := by norm_num [discountPeriod]
    rw [hper, if_pos (by norm_num : (1:ℝ) + 0.1 > 0), jpow_one]
    norm_num
  refine ⟨hdf, rfl, ?_⟩
  intro hcontra
  rw [hcontra] at hdf
  simp only [List.headI] at hdf
  rw [show c7proj.discountFactor = 0 from rfl] at hdf
  norm_num at hdf

/-- C7 (amended): calculateValuation is deterministic but mutates its input
array: it rewrites exactly the discountFactor, fcf and pvOfFcf fields of
each element (fcf becomes the element's ufcf); every other field of every
element, and the array length, are unchanged. -/
theorem c7_amended (m : Model) (ps : List YearProjection) :
    (calculateValuation m ps).1.map eraseDiscountFields =
      ps.map eraseDiscountFields ∧
    (calculateValuation m ps).1.map (fun p => p.fcf) =
      ps.map (fun p => p.ufcf) ∧
    (calculateValuation m ps).1.length = ps.length := by
  cases ps with
  | nil => exact ⟨rfl, rfl, rfl⟩
  | cons p rest =>
      rw [calculateValuation_fst]
      exact ⟨applyDiscounts_map_erase _ _ 0 _, applyDiscounts_map_fcf _ _ 0 _,
        applyDiscounts_length _ _ 0 _⟩

/-- C9 (witness): the Gordon guard statement instantiated at the all-default
model (wacc 10%, terminal growth 2%, so wacc - g = 0.08 > 0.001) and a
single default projected year. -/
theorem c9_gordon_guard_witness :
    (([({} : YearProjection)] : List YearProjection) ≠ []) ∧
    ((max 0.01 (safeNumber ({} : Model).wacc 10 / 100) -
        safeNumber ({} : Model).terminalGrowthRate 2 / 100 > 0.001 →
        (calculateValuation {} [({} : YearProjection)]).2.terminalValueGordon =
          ([({} : YearProjection)] : List YearProjection).getLast!.ufcf *
              (1 + safeNumber ({} : Model).terminalGrowthRate 2 / 100) /
            (max 0.01 (safeNumber ({} : Model).wacc 10 / 100) -
              safeNumber ({} : Model).terminalGrowthRate 2 / 100)) ∧
      (max 0.01 (safeNumber ({} : Model).wacc 10 / 100) -
          safeNumber ({} : Model).terminalGrowthRate 2 / 100 ≤ 0.001 →
        (calculateValuation {} [({} : YearProjection)]).2.terminalValueGordon = 0)) :=
  ⟨by simp, c9_gordon_guard {} [{}] (by simp)⟩

/-- C4 (amended): impliedMultiple = enterpriseValue / lastYearEbitda when
the final projected year's EBITDA is nonzero; when it is 0 the source's
`lastProjection.ebitda || 1` substitutes 1 (0 is falsy), the `!== 0` guard
is dead, and impliedMultiple equals enterpriseValue itself, not 0. -/
theorem c4_amended (m : Model) (ps : List YearProjection) (h : ps ≠ []) :
    (ps.getLast!.ebitda ≠ 0 →
        (calculateValuation m ps).2.impliedMultiple =
          (calculateValuation m ps).2.enterpriseValue / ps.getLast!.ebitda) ∧
    (ps.getLast!.ebitda = 0 →
        (calculateValuation m ps).2.impliedMultiple =
          (calculateValuation m ps).2.enterpriseValue) := by
  cases ps with
  | nil => exact absurd rfl h
  | cons p rest =>
    have hfr := (applyDiscounts_getLast!_ufcf (max 0.01 (safeNumber m.wacc 10 / 100))
      (decide (m.useMidYearConvention ≠ some false)) 0 (p :: rest)
      (List.cons_ne_nil p rest)).2
    constructor
    · intro hne
      simp only [calculateValuation, List.isEmpty_cons, Bool.false_eq_true, if_false]
      rw [hfr]
      simp only [if_neg hne]
      rw [if_pos hne]
    · intro hz
      simp only [calculateValuation, List.isEmpty_cons, Bool.false_eq_true, if_false]
      rw [hfr]
      simp only [if_pos hz]
      rw [if_pos (one_ne_zero : (1:ℝ) ≠ 0)]
      rw [div_one]

/-- The C4 counterexample model: mid-year convention off, all other fields
at their defaults (wacc 10%, terminal growth 2%, no debt or cash). -/
def c4model : Model := { useMidYearConvention := some false }

/-- The single projected year of the C4 counterexample: EBITDA 0, UFCF 100. -/
def c4proj : YearProjection := { ufcf := 100 }

/-- C4 (counterexample): with a final-year EBITDA of 0 and UFCF 100 the
enterprise value is 1250 (= (100 + 1275)/1.1) and impliedMultiple comes
back as 1250 - the enterprise value divided by the substituted 1 - not 0
as the claim requires. -/
theorem c4_counterexample :
    ([c4proj] : List YearProjection).getLast!.ebitda = 0 ∧
    (calculateValuation c4model [c4proj]).2.impliedMultiple = 1250 ∧
    (1250 : ℝ) ≠ 0 := by
  refine ⟨rfl, ?_, by norm_num⟩
  have hmid : decide (c4model.useMidYearConvention ≠ some false) = false := by
    simp [c4model]
  have hper : discountPeriod false 0 = 1 := by norm_num [discountPeriod]
  have htv : tvDiscountPeriod false ([c4proj] : List YearProjection).length = 1 := by
    norm_num [tvDiscountPeriod]
  simp only [calculateValuation, applyDiscounts, discountUpdate, hmid,
    List.isEmpty_cons, Bool.false_eq_true, if_false, hper, htv,
    List.map_cons, List.map_nil, List.sum_cons, List.sum_nil]
  norm_num [safeNumber, c4model, c4proj, max_def, jpow_one,
    List.getLast!_cons, List.getLastD_nil]

/-- C4 (witness): the amended impliedMultiple statement instantiated at the
all-default model and a single default projected year. -/
theorem c4_amended_witness :
    (([({} : YearProjection)] : List YearProjection) ≠ []) ∧
    ((([({} : YearProjection)] : List YearProjection).getLast!.ebitda ≠ 0 →
        (calculateValuation {} [({} : YearProjection)]).2.impliedMultiple =
          (calculateValuation {} [({} : YearProjection)]).2.enterpriseValue /
            ([({} : YearProjection)] : List YearProjection).getLast!.ebitda) ∧
      (([({} : YearProjection)] : List YearProjection).getLast!.ebitda = 0 →
        (calculateValuation {} [({} : YearProjection)]).2.impliedMultiple =
          (calculateValuation {} [({} : YearProjection)]).2.enterpriseValue)) :=
  ⟨by simp, c4_amended {} [{}] (by simp)⟩

/-- C10: a peer whose ebitda (resp. netIncome) field is absent or
non-numeric gets the fallback 1, not exclusion: its EV/EBITDA (resp. P/E)
ratio is its entire ev (resp. marketCap), and when that is positive the
peer passes the positive filter and contributes the full amount to the
average - shown for a single-peer list, where the average IS that amount. -/
theorem c10_fallback_one (m : Model) (ps : List YearProjection)
    (c : TradingCompEntry)
    (hcomps : m.tradingComps = [c]) (hps : ps ≠ [])
    (he : c.ebitda = none) (hni : c.netIncome = none)
    (hev : 0 < safeNumber c.ev 0) (hmc : 0 < safeNumber c.marketCap 0) :
    evEbitdaRatio c = safeNumber c.ev 0 ∧
    peRatio c = safeNumber c.marketCap 0 ∧
    (calculateTradingComps m ps).avgEvEbitda = safeNumber c.ev 0 ∧
    (calculateTradingComps m ps).avgPe = safeNumber c.marketCap 0 := by
  have hr1 : evEbitdaRatio c = safeNumber c.ev 0 := by
    unfold evEbitdaRatio
    rw [he]
    norm_num [safeNumber]
  have hr2 : peRatio c = safeNumber c.marketCap 0 := by
    unfold peRatio
    rw [hni]
    norm_num [safeNumber]
  refine ⟨hr1, hr2, ?_, ?_⟩ <;>
  · cases ps with
    | nil => exact absurd rfl hps
    | cons p rest =>
        simp only [calculateTradingComps, hcomps, List.isEmpty_cons,
          List.isEmpty_nil, Bool.or_self, Bool.false_eq_true, if_false,
          Bool.or_false, List.map_cons, List.map_nil, hr1, hr2,
          List.filter, decide_eq_true hev, decide_eq_true hmc]
        norm_num

/-- The C10 witness peer: no ebitda / netIncome, positive ev and marketCap. -/
def c10comp : TradingCompEntry := { ev := some 5, marketCap := some 7 }

/-- The C10 witness model carrying that single peer. -/
def c10model : Model := { tradingComps := [c10comp] }

/-- C10 (witness): the fallback statement instantiated at the one-peer model
(ev 5, marketCap 7, ebitda and netIncome absent): both averages equal the
full ev / marketCap. -/
theorem c10_fallback_one_witness :
    c10model.tradingComps = [c10comp] ∧
    (([({} : YearProjection)] : List YearProjection) ≠ []) ∧
    c10comp.ebitda = none ∧ c10comp.netIncome = none ∧
    0 < safeNumber c10comp.ev 0 ∧ 0 < safeNumber c10comp.marketCap 0 ∧
    (evEbitdaRatio c10comp = safeNumber c10comp.ev 0 ∧
      peRatio c10comp = safeNumber c10comp.marketCap 0 ∧
      (calculateTradingComps c10model
          [({} : YearProjection)]).avgEvEbitda = safeNumber c10comp.ev 0 ∧
      (calculateTradingComps c10model
          [({} : YearProjection)]).avgPe = safeNumber c10comp.marketCap 0) :=
  ⟨rfl, by simp, rfl, rfl, by norm_num [safeNumber, c10comp],
   by norm_num [safeNumber, c10comp],
   c10_fallback_one c10model [{}] c10comp rfl (by simp) rfl rfl
     (by norm_num [safeNumber, c10comp]) (by norm_num [safeNumber, c10comp])⟩

/-- The C3 failing model: a cash balance of 100 and no debt. -/
def c3model : Model := { cashBalance := some 100 }

/-- C3 (evaluation at the failing input): in the equity-value breakdown the step labelled
"Less: Net Debt" carries the gross debtBalance (here 0) while the reported
final Equity Value is enterpriseValue - (debtBalance - cashBalance)
(here EV + 100), so the steps do not chain to the final value whenever
cashBalance is nonzero. -/
theorem c3_equity_steps_break :
    ∃ s0 s1 s2,
      (calculateBreakdowns c3model (calculateValuation c3model [{}]).1
          (calculateValuation c3model [{}]).2).valuationBreakdown.equityValue.steps
        = [s0, s1, s2] ∧
      s0.value = (calculateValuation c3model [{}]).2.enterpriseValue ∧
      s1.value = 0 ∧
      s0.value - s1.value ≠
        (calculateBreakdowns c3model (calculateValuation c3model [{}]).1
          (calculateValuation c3model [{}]).2).valuationBreakdown.equityValue.finalValue := by
  refine ⟨_, _, _, rfl, rfl, rfl, ?_⟩
  have hq : (calculateValuation c3model [{}]).2.equityValue =
      (calculateValuation c3model [{}]).2.enterpriseValue - (0 - 100) := rfl
  show (calculateValuation c3model [{}]).2.enterpriseValue - 0 ≠
    (calculateValuation c3model [{}]).2.equityValue
  rw [hq]
  intro hcontra
  linarith
